import Mathlib

/-!
# Synapse load balancer: verification of the round-robin reverse proxy

Shallow embedding of `src/load_balancer.py`.  The module keeps two global
variables, `healthy_servers` (a list of backend base URLs) and
`server_iterator` (an `itertools.cycle` over that list, recreated whenever
the list is replaced).  We model the pair as an `LBState` whose `cursor`
is the position of the cyclic iterator.  Probing is modelled by a function
`probe : Server → Option Nat` giving, for each backend, the HTTP status of
its `GET /health` response (`none` = timeout / connection error, the
`aiohttp.ClientError` / `asyncio.TimeoutError` branch).  Upstream proxying
is modelled by a function `UpstreamRequest → UpstreamResult`, and `proxy`
additionally returns the list of upstream requests it issued, so that
"no upstream call is made" is expressible.
-/

namespace Synapse

/-- A backend server, identified by its base URL. -/
abbrev Server := String

/-- Configured backend pool (`BACKEND_SERVERS` in the source). -/
def BACKEND_SERVERS : List Server :=
  ["http://localhost:8000", "http://localhost:8001", "http://localhost:8002"]

/-- Seconds slept between health-check cycles (`HEALTH_CHECK_INTERVAL`). -/
def HEALTH_CHECK_INTERVAL : Nat := 10

/-- Shared mutable state of the balancer: the `healthy_servers` list and the
position of the `cycle` iterator over it (`server_iterator`). -/
structure LBState where
  healthy_servers : List Server
  cursor : Nat
  deriving Repr, DecidableEq

/-- One probe pass of the `for server in BACKEND_SERVERS` loop (shared by
`health_check_task` and the startup pass in `lifespan`): a backend is kept
iff its probe returned HTTP 200; a non-200 status or a raised
`ClientError`/`TimeoutError` (`probe s = none`) drops it. -/
def probePass (backends : List Server) (probe : Server → Option Nat) : List Server :=
  match backends with
  | [] => []
  | s :: rest =>
    if probe s = some 200 then s :: probePass rest probe
    else probePass rest probe

/-- One cycle of `health_check_task` after the probe pass:
`if set(currently_healthy) != set(healthy_servers)` then the list is
replaced wholesale and `server_iterator = cycle(healthy_servers)` restarts
the cursor at 0; otherwise the state is untouched. -/
def healthCheckStep (st : LBState) (backends : List Server)
    (probe : Server → Option Nat) : LBState :=
  let currently_healthy := probePass backends probe
  if currently_healthy.toFinset = st.healthy_servers.toFinset then st
  else { healthy_servers := currently_healthy, cursor := 0 }

/-- State installed by `lifespan` after the initial synchronous probe pass:
`healthy_servers.extend(initially_healthy)` starting from the empty list,
then `server_iterator = cycle(healthy_servers)`. -/
def initialState (backends : List Server) (probe : Server → Option Nat) : LBState :=
  { healthy_servers := probePass backends probe, cursor := 0 }

/-- Runs `healthCheckStep` once per element of `probes` (one probe outcome
function per health-check cycle). -/
def runCycles (backends : List Server) (probes : List (Server → Option Nat))
    (st : LBState) : LBState :=
  probes.foldl (fun s p => healthCheckStep s backends p) st

/-- Semantics of `next(server_iterator)` for `itertools.cycle(healthy_servers)`:
on an empty list the iterator is exhausted and `next` raises `StopIteration`
(modelled as `none`); otherwise it yields the element at the cursor position
modulo the length and advances the cursor. -/
def cycleNext (st : LBState) : Option (Server × LBState) :=
  if h : st.healthy_servers.length = 0 then none
  else
    some (st.healthy_servers.get
            ⟨st.cursor % st.healthy_servers.length,
             Nat.mod_lt _ (Nat.pos_of_ne_zero h)⟩,
          { st with cursor := st.cursor + 1 })

/-- List of the outputs of `n` consecutive `next(server_iterator)` calls. -/
def selectionList (st : LBState) : Nat → List Server
  | 0 => []
  | n + 1 =>
    match cycleNext st with
    | none => []
    | some (s, st1) => s :: selectionList st1 n

/-- State of the iterator after `n` consecutive `next` calls. -/
def advance (st : LBState) : Nat → LBState
  | 0 => st
  | n + 1 =>
    match cycleNext st with
    | none => st
    | some (_, st1) => advance st1 n

/-- Output of the `(n+1)`-st `next(server_iterator)` call (0-indexed). -/
def nthSelection (st : LBState) (n : Nat) : Option Server :=
  (cycleNext (advance st n)).map Prod.fst

/-- Inbound HTTP request as seen by the `proxy` handler: method, the
`{path:path}` parameter (no leading slash), query parameters, headers and
raw body bytes. -/
structure HttpRequest where
  method : String
  path : String
  queryParams : List (String × String)
  headers : List (String × String)
  body : List Nat
  deriving Repr, DecidableEq

/-- Request issued to the selected backend by `session.request(...)`. -/
structure UpstreamRequest where
  method : String
  url : String
  headers : List (String × String)
  params : List (String × String)
  body : List Nat
  deriving Repr, DecidableEq

/-- An HTTP response: status, headers, body bytes. -/
structure HttpResponse where
  status : Nat
  headers : List (String × String)
  body : List Nat
  deriving Repr, DecidableEq

/-- Outcome of the upstream call: a response, or a transport-level failure
(`aiohttp.ClientError` or `asyncio.TimeoutError`, including the 120 s
end-to-end timeout) carrying the diagnostic text of the exception. -/
inductive UpstreamResult where
  | ok (resp : HttpResponse)
  | transportError (msg : String)
  deriving Repr, DecidableEq

/-- What the client receives from one `proxy` invocation: either a relayed
`Response(...)` or an `HTTPException(status_code, detail)`. -/
inductive ProxyResult where
  | response (resp : HttpResponse)
  | httpError (status : Nat) (detail : String)
  deriving Repr, DecidableEq

/-- Python's `str.lower()` as used on ASCII header names: character-wise
lowercasing (semantically `String.toLower`, written out so it reduces). -/
def lower (s : String) : String := ⟨s.data.map Char.toLower⟩

/-- Builds the upstream request exactly as `proxy` does:
`url = f"{target_server}/{path}"`, headers are the inbound headers with
every key whose lowercase form is `host` dropped, and method, query
parameters and body bytes are passed through unchanged. -/
def buildUpstreamRequest (target : Server) (req : HttpRequest) : UpstreamRequest :=
  { method := req.method
    url := target ++ "/" ++ req.path
    headers := req.headers.filter (fun kv => !(lower kv.1 == "host"))
    params := req.queryParams
    body := req.body }

/-- Builds the client-facing `Response` from the upstream response: the
status and full body verbatim, and the headers with every key whose
lowercase form is `transfer-encoding` or `connection` dropped. -/
def relayResponse (resp : HttpResponse) : HttpResponse :=
  { status := resp.status
    headers := resp.headers.filter
      (fun kv => !(lower kv.1 == "transfer-encoding")
               && !(lower kv.1 == "connection"))
    body := resp.body }

/-- The `proxy` handler.  Returns the client-visible result, the list of
upstream requests actually issued (empty when no upstream I/O happened),
and the resulting iterator state.  The `none` branch of `cycleNext` models
`next` raising `StopIteration`, which would escape the handler as an
internal server error. -/
def proxy (st : LBState) (req : HttpRequest)
    (upstream : UpstreamRequest → UpstreamResult) :
    ProxyResult × List UpstreamRequest × LBState :=
  if st.healthy_servers.isEmpty then
    (.httpError 503 "No healthy backend servers available.", [], st)
  else
    match cycleNext st with
    | none => (.httpError 500 "StopIteration", [], st)
    | some (target_server, st1) =>
      let ureq := buildUpstreamRequest target_server req
      match upstream ureq with
      | .ok resp => (.response (relayResponse resp), [ureq], st1)
      | .transportError msg =>
        (.httpError 502 ("Bad Gateway or connection error: " ++ msg), [ureq], st1)

/-- Start time of the `n`-th iteration of the `while True` loop in
`health_check_task` (idealized clock, cycle 0 starting at time 0): the loop
probes for `probeDur n` time units and only then `await asyncio.sleep(interval)`. -/
def cycleStart (interval : Nat) (probeDur : Nat → Nat) : Nat → Nat
  | 0 => 0
  | n + 1 => cycleStart interval probeDur n + probeDur n + interval

/-- Time at which the `n`-th cycle finishes probing and begins its sleep. -/
def cycleProbeEnd (interval : Nat) (probeDur : Nat → Nat) (n : Nat) : Nat :=
  cycleStart interval probeDur n + probeDur n

/-- Membership in the probe pass result: kept iff configured and probed 200. -/
theorem mem_probePass (backends : List Server) (probe : Server → Option Nat)
    (s : Server) :
    s ∈ probePass backends probe ↔ s ∈ backends ∧ probe s = some 200 := by
  induction backends with
  | nil => simp [probePass]
  | cons a rest ih =>
    by_cases h : probe a = some 200
    · simp only [probePass, h, if_true, List.mem_cons, ih]
      constructor
      · rintro (rfl | ⟨hm, hp⟩)
        exacts [⟨Or.inl rfl, h⟩, ⟨Or.inr hm, hp⟩]
      · rintro ⟨rfl | hm, hp⟩
        exacts [Or.inl rfl, Or.inr ⟨hm, hp⟩]
    · simp only [probePass, h, if_false, List.mem_cons, ih]
      constructor
      · rintro ⟨hm, hp⟩
        exact ⟨Or.inr hm, hp⟩
      · rintro ⟨rfl | hm, hp⟩
        exacts [absurd hp h, ⟨hm, hp⟩]

/-- The probe pass only ever returns configured backends. -/
theorem probePass_subset (backends : List Server) (probe : Server → Option Nat) :
    probePass backends probe ⊆ backends := by
  intro s hs
  exact ((mem_probePass backends probe s).mp hs).1

/-- Membership in the healthy list after one health-check cycle depends only
on the probe outcome of that cycle, never on the previous state. -/
theorem mem_healthCheckStep (st : LBState) (backends : List Server)
    (probe : Server → Option Nat) (s : Server) :
    s ∈ (healthCheckStep st backends probe).healthy_servers ↔
      s ∈ backends ∧ probe s = some 200 := by
  rw [← mem_probePass backends probe s]
  simp only [healthCheckStep]
  split
  · rename_i hEq
    constructor
    · intro hm
      exact List.mem_toFinset.mp (hEq ▸ List.mem_toFinset.mpr hm)
    · intro hm
      exact List.mem_toFinset.mp (hEq.symm ▸ List.mem_toFinset.mpr hm)
  · exact Iff.rfl

/-- One health-check cycle preserves the invariant that the healthy list is
a subset of the configured backends. -/
theorem healthCheckStep_subset (st : LBState) (backends : List Server)
    (probe : Server → Option Nat)
    (h : st.healthy_servers ⊆ backends) :
    (healthCheckStep st backends probe).healthy_servers ⊆ backends := by
  simp only [healthCheckStep]
  split
  · exact h
  · exact probePass_subset backends probe

/-- Any number of health-check cycles preserves the subset invariant. -/
theorem runCycles_subset (backends : List Server)
    (probes : List (Server → Option Nat)) (st : LBState)
    (h : st.healthy_servers ⊆ backends) :
    (runCycles backends probes st).healthy_servers ⊆ backends := by
  induction probes generalizing st with
  | nil => exact h
  | cons p rest ih =>
    exact ih (healthCheckStep st backends p) (healthCheckStep_subset st backends p h)

/-- The probe pass over distinct configured backends is duplicate-free, so
every healthy list the checker can install satisfies the Nodup hypothesis
of the round-robin fairness theorem. -/
theorem probePass_nodup (backends : List Server) (probe : Server → Option Nat)
    (h : backends.Nodup) : (probePass backends probe).Nodup := by
  induction backends with
  | nil => simp [probePass]
  | cons a rest ih =>
    obtain ⟨ha, hrest⟩ := List.nodup_cons.mp h
    by_cases hp : probe a = some 200
    · simp only [probePass, hp, if_true]
      exact List.nodup_cons.mpr
        ⟨fun hmem => ha ((mem_probePass rest probe a).mp hmem).1, ih hrest⟩
    · simp only [probePass, hp, if_false]
      exact ih hrest

/-- Evaluation of `next(server_iterator)` on a non-empty healthy list. -/
theorem cycleNext_of_ne_nil (hs : List Server) (c : Nat) (h : hs ≠ []) :
    cycleNext ⟨hs, c⟩ =
      some (hs.get ⟨c % hs.length, Nat.mod_lt _ (List.length_pos.mpr h)⟩,
            ⟨hs, c + 1⟩) := by
  unfold cycleNext
  rw [dif_neg (Nat.pos_iff_ne_zero.mp (List.length_pos.mpr h))]

/-- Element-wise description of `n` consecutive selections starting at
cursor `c`: the `i`-th output is element `(c + i) mod length`. -/
theorem selectionList_get? (hs : List Server) (h : hs ≠ []) :
    ∀ (n c i : Nat), i < n →
      (selectionList ⟨hs, c⟩ n).get? i = hs.get? ((c + i) % hs.length) := by
  intro n
  induction n with
  | zero => intro c i hi; omega
  | succ m ih =>
    intro c i hi
    rw [selectionList, cycleNext_of_ne_nil hs c h]
    cases i with
    | zero =>
      simp only [List.get?_cons_zero, Nat.add_zero]
      exact (List.get?_eq_get (Nat.mod_lt _ (List.length_pos.mpr h))).symm
    | succ j =>
      simp only [List.get?_cons_succ]
      rw [ih (c + 1) j (by omega), show c + 1 + j = c + (j + 1) from by omega]

/-- The selections never run past `n` outputs. -/
theorem selectionList_length (hs : List Server) (h : hs ≠ []) :
    ∀ (n c : Nat), (selectionList ⟨hs, c⟩ n).length = n := by
  intro n
  induction n with
  | zero => intro c; rfl
  | succ m ih =>
    intro c
    rw [selectionList, cycleNext_of_ne_nil hs c h]
    simp [ih (c + 1)]

/-- A full lap of the cyclic iterator starting at cursor `c` is exactly the
healthy list rotated by `c`. -/
theorem selectionList_eq_rotate (hs : List Server) (h : hs ≠ []) (c : Nat) :
    selectionList ⟨hs, c⟩ hs.length = hs.rotate c := by
  apply List.ext_get?
  intro i
  by_cases hi : i < hs.length
  · rw [selectionList_get? hs h hs.length c i hi, List.get?_rotate hi, Nat.add_comm]
  · rw [List.get?_eq_none.mpr, List.get?_eq_none.mpr]
    · rw [List.length_rotate]; omega
    · rw [selectionList_length hs h]; omega

/-- Advancing the iterator `n` times just moves the cursor by `n`. -/
theorem advance_eq (hs : List Server) (h : hs ≠ []) :
    ∀ (n c : Nat), advance ⟨hs, c⟩ n = ⟨hs, c + n⟩ := by
  intro n
  induction n with
  | zero => intro c; rfl
  | succ m ih =>
    intro c
    rw [advance, cycleNext_of_ne_nil hs c h]
    show advance ⟨hs, c + 1⟩ m = ⟨hs, c + (m + 1)⟩
    rw [ih (c + 1)]
    congr 1
    omega

/-- Closed form of the `(n+1)`-st selection. -/
theorem nthSelection_eq (hs : List Server) (h : hs ≠ []) (c n : Nat) :
    nthSelection ⟨hs, c⟩ n = hs.get? ((c + n) % hs.length) := by
  rw [nthSelection, advance_eq hs h, cycleNext_of_ne_nil hs (c + n) h]
  rw [Option.map_some']
  exact (List.get?_eq_get (Nat.mod_lt _ (List.length_pos.mpr h))).symm

/-- The first selection of a freshly replaced list is its head. -/
theorem nthSelection_zero_head (hs : List Server) :
    nthSelection ⟨hs, 0⟩ 0 = hs.head? := by
  cases hs with
  | nil => rfl
  | cons a rest =>
    rw [nthSelection_eq (a :: rest) (by simp) 0 0]
    simp

/-- Behaviour of `proxy` past the non-emptiness check: the selection
succeeds, the target belongs to the current healthy list, and the result is
determined by the single upstream call on the built request. -/
theorem proxy_spec (st : LBState) (req : HttpRequest)
    (upstream : UpstreamRequest → UpstreamResult) (h : st.healthy_servers ≠ []) :
    ∃ t st1, cycleNext st = some (t, st1) ∧ t ∈ st.healthy_servers ∧
      proxy st req upstream =
        match upstream (buildUpstreamRequest t req) with
        | .ok resp =>
            (.response (relayResponse resp), [buildUpstreamRequest t req], st1)
        | .transportError msg =>
            (.httpError 502 ("Bad Gateway or connection error: " ++ msg),
             [buildUpstreamRequest t req], st1) := by
  obtain ⟨hs, c⟩ := st
  have h1 : hs ≠ [] := h
  refine ⟨hs.get ⟨c % hs.length, Nat.mod_lt _ (List.length_pos.mpr h1)⟩,
    ⟨hs, c + 1⟩, cycleNext_of_ne_nil hs c h1, List.get_mem hs _ _, ?_⟩
  have hbool : (LBState.healthy_servers ⟨hs, c⟩).isEmpty = false := by
    cases hs with
    | nil => exact absurd rfl h1
    | cons a l => rfl
  unfold proxy
  rw [hbool, cycleNext_of_ne_nil hs c h1]
  rfl

/-- C1: when the healthy list is empty at selection time, `proxy` answers
with HTTP 503 (`NoHealthyBackend`), issues no upstream request, and leaves
the iterator state untouched. -/
theorem C1_no_healthy_backend_503 (st : LBState) (req : HttpRequest)
    (upstream : UpstreamRequest → UpstreamResult)
    (h : st.healthy_servers = []) :
    proxy st req upstream =
      (.httpError 503 "No healthy backend servers available.", [], st) := by
  obtain ⟨hs, c⟩ := st
  have h1 : hs = [] := h
  subst h1
  rfl

/-- Witness for C1 at a concrete empty state. -/
theorem C1_no_healthy_backend_503_witness :
    proxy ⟨[], 0⟩ ⟨"GET", "v1/models", [], [], []⟩
        (fun _ => .transportError "connection refused")
      = (.httpError 503 "No healthy backend servers available.", [], ⟨[], 0⟩) :=
  C1_no_healthy_backend_503 ⟨[], 0⟩ ⟨"GET", "v1/models", [], [], []⟩
    (fun _ => .transportError "connection refused") rfl

/-- C2: after any health-check cycle, a backend is in the healthy list iff
it is configured and its probe of `/health` returned status 200; a non-200
status, timeout or connection error (`probe s ≠ some 200`) excludes it, and
the old state plays no role (no probation / hysteresis). -/
theorem C2_healthy_iff_probe_200 (st : LBState) (backends : List Server)
    (probe : Server → Option Nat) (s : Server) :
    s ∈ (healthCheckStep st backends probe).healthy_servers ↔
      s ∈ backends ∧ probe s = some 200 :=
  mem_healthCheckStep st backends probe s

/-- C3: with a stable healthy list of size `k ≥ 1` and no duplicates,
`k` consecutive `next` calls return each member exactly once (a
permutation of the list with no repeats), and the sequence of selections
is `k`-periodic. -/
theorem C3_round_robin_fair (hs : List Server) (c k : Nat) (hk : 1 ≤ k)
    (hlen : hs.length = k) (hnd : hs.Nodup) :
    (selectionList ⟨hs, c⟩ k).Perm hs ∧ (selectionList ⟨hs, c⟩ k).Nodup ∧
    ∀ n, nthSelection ⟨hs, c⟩ (n + k) = nthSelection ⟨hs, c⟩ n := by
  subst hlen
  have h : hs ≠ [] := List.length_pos.mp hk
  refine ⟨?_, ?_, ?_⟩
  · rw [selectionList_eq_rotate hs h c]
    exact List.rotate_perm hs c
  · rw [selectionList_eq_rotate hs h c]
    exact List.nodup_rotate.mpr hnd
  · intro n
    rw [nthSelection_eq hs h, nthSelection_eq hs h]
    congr 1
    rw [← Nat.add_assoc, Nat.add_mod_right]

/-- Witness for C3 on the configured pool of three backends. -/
theorem C3_round_robin_fair_witness :
    (selectionList ⟨BACKEND_SERVERS, 0⟩ 3).Perm BACKEND_SERVERS ∧
    (selectionList ⟨BACKEND_SERVERS, 0⟩ 3).Nodup ∧
    ∀ n, nthSelection ⟨BACKEND_SERVERS, 0⟩ (n + 3)
          = nthSelection ⟨BACKEND_SERVERS, 0⟩ n :=
  C3_round_robin_fair BACKEND_SERVERS 0 3 (by decide) (by decide) (by decide)

/-- C4: the relayed response carries the upstream status and full body
verbatim; a header survives iff its lowercased name is neither
`transfer-encoding` nor `connection`.  In particular, relaying status 201
with headers X-Test / Transfer-Encoding and body "hello" through `proxy`
keeps status, body and X-Test and drops Transfer-Encoding. -/
theorem C4_relay_verbatim_strip_hop_by_hop :
    (∀ resp : HttpResponse,
      (relayResponse resp).status = resp.status ∧
      (relayResponse resp).body = resp.body ∧
      (∀ kv : String × String,
        kv ∈ (relayResponse resp).headers ↔
          kv ∈ resp.headers ∧ lower kv.1 ≠ "transfer-encoding" ∧
            lower kv.1 ≠ "connection")) ∧
    (proxy ⟨["http://localhost:8000"], 0⟩ ⟨"GET", "v1/models", [], [], []⟩
        (fun _ => .ok ⟨201, [("X-Test", "1"), ("Transfer-Encoding", "chunked")],
                       [104, 101, 108, 108, 111]⟩)).1
      = .response ⟨201, [("X-Test", "1")], [104, 101, 108, 108, 111]⟩ := by
  constructor
  · intro resp
    refine ⟨rfl, rfl, ?_⟩
    intro kv
    simp [relayResponse, List.mem_filter, and_assoc]
  · decide

/-- C5: every upstream request the proxy issues keeps the inbound method,
query parameters and body bytes, targets `base ++ "/" ++ path` for a
backend in the current healthy list, and carries exactly the inbound
headers whose lowercased name is not `host` — so no `Host` header from the
client survives. -/
theorem C5_upstream_request_shape (st : LBState) (req : HttpRequest)
    (upstream : UpstreamRequest → UpstreamResult)
    (h : st.healthy_servers ≠ []) :
    ∀ ureq ∈ (proxy st req upstream).2.1,
      ureq.method = req.method ∧
      ureq.params = req.queryParams ∧
      ureq.body = req.body ∧
      (∃ target ∈ st.healthy_servers, ureq.url = target ++ "/" ++ req.path) ∧
      (∀ kv : String × String,
        kv ∈ ureq.headers ↔ kv ∈ req.headers ∧ lower kv.1 ≠ "host") ∧
      (∀ v : String, ("Host", v) ∉ ureq.headers) := by
  obtain ⟨t, st1, hcn, hmem, hpx⟩ := proxy_spec st req upstream h
  intro ureq hu
  rw [hpx] at hu
  have hb : ureq = buildUpstreamRequest t req := by
    cases hup : upstream (buildUpstreamRequest t req) <;>
      rw [hup] at hu <;> simpa using hu
  subst hb
  refine ⟨rfl, rfl, rfl, ⟨t, hmem, rfl⟩, ?_, ?_⟩
  · intro kv
    simp [buildUpstreamRequest, List.mem_filter]
  · intro v hv
    have h2 := (List.mem_filter.mp hv).2
    have h3 : lower "Host" ≠ "host" := by simpa using h2
    exact h3 (by decide)

/-- Witness for C5: the one upstream request issued for a concrete inbound
request carrying `Host: client.example` has the required shape. -/
theorem C5_upstream_request_shape_witness :
    (buildUpstreamRequest "http://localhost:8000"
        ⟨"POST", "v1/chat/completions", [("a", "b")],
         [("Host", "client.example"), ("X-Test", "1")], [104, 105]⟩).method
        = "POST" ∧
    (buildUpstreamRequest "http://localhost:8000"
        ⟨"POST", "v1/chat/completions", [("a", "b")],
         [("Host", "client.example"), ("X-Test", "1")], [104, 105]⟩).params
        = [("a", "b")] ∧
    (buildUpstreamRequest "http://localhost:8000"
        ⟨"POST", "v1/chat/completions", [("a", "b")],
         [("Host", "client.example"), ("X-Test", "1")], [104, 105]⟩).body
        = [104, 105] ∧
    (∃ target ∈ (⟨["http://localhost:8000"], 0⟩ : LBState).healthy_servers,
      (buildUpstreamRequest "http://localhost:8000"
          ⟨"POST", "v1/chat/completions", [("a", "b")],
           [("Host", "client.example"), ("X-Test", "1")], [104, 105]⟩).url
        = target ++ "/" ++ "v1/chat/completions") ∧
    (∀ kv : String × String,
      kv ∈ (buildUpstreamRequest "http://localhost:8000"
          ⟨"POST", "v1/chat/completions", [("a", "b")],
           [("Host", "client.example"), ("X-Test", "1")], [104, 105]⟩).headers ↔
        kv ∈ [("Host", "client.example"), ("X-Test", "1")] ∧
          lower kv.1 ≠ "host") ∧
    (∀ v : String, ("Host", v) ∉
      (buildUpstreamRequest "http://localhost:8000"
          ⟨"POST", "v1/chat/completions", [("a", "b")],
           [("Host", "client.example"), ("X-Test", "1")], [104, 105]⟩).headers) :=
  C5_upstream_request_shape ⟨["http://localhost:8000"], 0⟩
    ⟨"POST", "v1/chat/completions", [("a", "b")],
     [("Host", "client.example"), ("X-Test", "1")], [104, 105]⟩
    (fun _ => .transportError "timeout") (by decide)
    (buildUpstreamRequest "http://localhost:8000"
      ⟨"POST", "v1/chat/completions", [("a", "b")],
       [("Host", "client.example"), ("X-Test", "1")], [104, 105]⟩)
    (by decide)

/-- C6: when the upstream call fails with a transport error or timeout, the
client receives the single well-formed 502 response with a diagnostic
message, and exactly one upstream attempt was made (no retry against
another backend). -/
theorem C6_transport_error_maps_502 (st : LBState) (req : HttpRequest)
    (msg : String) (upstream : UpstreamRequest → UpstreamResult)
    (h : st.healthy_servers ≠ [])
    (hfail : ∀ u : UpstreamRequest, upstream u = .transportError msg) :
    (proxy st req upstream).1
        = .httpError 502 ("Bad Gateway or connection error: " ++ msg) ∧
      (proxy st req upstream).2.1.length = 1 := by
  obtain ⟨t, st1, hcn, hmem, hpx⟩ := proxy_spec st req upstream h
  rw [hpx, hfail]
  exact ⟨rfl, rfl⟩

/-- Witness for C6 at a concrete state and failing upstream. -/
theorem C6_transport_error_maps_502_witness :
    (proxy ⟨["http://localhost:8000"], 0⟩ ⟨"GET", "health", [], [], []⟩
        (fun _ => .transportError "Cannot connect to host")).1
      = .httpError 502
          ("Bad Gateway or connection error: " ++ "Cannot connect to host") ∧
    (proxy ⟨["http://localhost:8000"], 0⟩ ⟨"GET", "health", [], [], []⟩
        (fun _ => .transportError "Cannot connect to host")).2.1.length = 1 :=
  C6_transport_error_maps_502 ⟨["http://localhost:8000"], 0⟩
    ⟨"GET", "health", [], [], []⟩ "Cannot connect to host"
    (fun _ => .transportError "Cannot connect to host") (by decide)
    (fun _ => rfl)

/-- C7: the healthy list is replaced exactly when the newly probed set
differs from the current one as an unordered set; a replacement installs
the probed list with the cursor reset to 0, so the next selection is its
head; an unchanged membership leaves state (and cursor) untouched. -/
theorem C7_replace_only_on_change (st : LBState) (backends : List Server)
    (probe : Server → Option Nat) :
    ((probePass backends probe).toFinset = st.healthy_servers.toFinset →
        healthCheckStep st backends probe = st) ∧
    ((probePass backends probe).toFinset ≠ st.healthy_servers.toFinset →
        healthCheckStep st backends probe
            = ⟨probePass backends probe, 0⟩ ∧
          nthSelection ⟨probePass backends probe, 0⟩ 0
            = (probePass backends probe).head?) := by
  constructor
  · intro hEq
    simp [healthCheckStep, hEq]
  · intro hNe
    exact ⟨by simp [healthCheckStep, hNe], nthSelection_zero_head _⟩

/-- Witness for C7: a probe pass that turns one backend healthy from an
empty healthy list replaces the list and resets the cursor. -/
theorem C7_replace_only_on_change_witness :
    healthCheckStep ⟨[], 7⟩ ["http://localhost:8000"] (fun _ => some 200)
        = ⟨probePass ["http://localhost:8000"] (fun _ => some 200), 0⟩ ∧
      nthSelection ⟨probePass ["http://localhost:8000"] (fun _ => some 200), 0⟩ 0
        = (probePass ["http://localhost:8000"] (fun _ => some 200)).head? :=
  (C7_replace_only_on_change ⟨[], 7⟩ ["http://localhost:8000"]
      (fun _ => some 200)).2 (by decide)

/-- C8: past the non-emptiness check, the cyclic selection always succeeds
(the exhausted-iterator branch of `proxy` is unreachable) and the selected
backend belongs to the healthy list current at selection time. -/
theorem C8_selection_total_and_sound (st : LBState) (req : HttpRequest)
    (upstream : UpstreamRequest → UpstreamResult)
    (h : st.healthy_servers ≠ []) :
    (∃ t st1, cycleNext st = some (t, st1) ∧ t ∈ st.healthy_servers) ∧
      (proxy st req upstream).1 ≠ .httpError 500 "StopIteration" := by
  obtain ⟨t, st1, hcn, hmem, hpx⟩ := proxy_spec st req upstream h
  refine ⟨⟨t, st1, hcn, hmem⟩, ?_⟩
  rw [hpx]
  cases upstream (buildUpstreamRequest t req) <;> simp

/-- Witness for C8 on a two-backend healthy list. -/
theorem C8_selection_total_and_sound_witness :
    (∃ t st1,
        cycleNext ⟨["http://localhost:8000", "http://localhost:8001"], 5⟩
            = some (t, st1) ∧
          t ∈ (⟨["http://localhost:8000", "http://localhost:8001"], 5⟩
                : LBState).healthy_servers) ∧
      (proxy ⟨["http://localhost:8000", "http://localhost:8001"], 5⟩
          ⟨"GET", "v1/models", [], [], []⟩
          (fun _ => .ok ⟨200, [], []⟩)).1
        ≠ .httpError 500 "StopIteration" :=
  C8_selection_total_and_sound
    ⟨["http://localhost:8000", "http://localhost:8001"], 5⟩
    ⟨"GET", "v1/models", [], [], []⟩
    (fun _ => .ok ⟨200, [], []⟩) (by decide)

/-- C9: after the startup probe pass and any number of health-check
cycles, the healthy list is a subset of the configured backends, and an
empty configured list forces an empty healthy list. -/
theorem C9_healthy_subset_configured (backends : List Server)
    (probe0 : Server → Option Nat) (probes : List (Server → Option Nat)) :
    (runCycles backends probes (initialState backends probe0)).healthy_servers
        ⊆ backends ∧
      (backends = [] →
        (runCycles backends probes
            (initialState backends probe0)).healthy_servers = []) := by
  have hsub := runCycles_subset backends probes (initialState backends probe0)
    (probePass_subset backends probe0)
  refine ⟨hsub, fun hb => ?_⟩
  subst hb
  exact List.subset_nil.mp hsub

/-- Witness for C9 with the configured pool and one cycle of probes. -/
theorem C9_healthy_subset_configured_witness :
    (runCycles BACKEND_SERVERS [fun _ => some 200]
        (initialState BACKEND_SERVERS (fun _ => none))).healthy_servers
        ⊆ BACKEND_SERVERS ∧
      (BACKEND_SERVERS = [] →
        (runCycles BACKEND_SERVERS [fun _ => some 200]
            (initialState BACKEND_SERVERS (fun _ => none))).healthy_servers
          = []) :=
  C9_healthy_subset_configured BACKEND_SERVERS (fun _ => none)
    [fun _ => some 200]

/-- C10 counterexample: the claim says consecutive cycle starts are exactly
the configured interval apart; with a probe pass taking 5 time units the
code separates them by 15, because it sleeps the full interval after
probing ends. -/
theorem C10_start_to_start_counterexample :
    ¬ (cycleStart HEALTH_CHECK_INTERVAL (fun _ => 5) 1
        - cycleStart HEALTH_CHECK_INTERVAL (fun _ => 5) 0
        = HEALTH_CHECK_INTERVAL) := by
  decide

/-- C10 (amended): the sleep of `HEALTH_CHECK_INTERVAL` runs after the
probe pass, so the next cycle starts exactly `interval` after the previous
cycle finished probing; consecutive starts are `probe duration + interval`
apart and never closer than `interval` (no back-to-back cycles). -/
theorem C10_interval_measured_from_cycle_end (interval : Nat)
    (probeDur : Nat → Nat) (n : Nat) :
    cycleStart interval probeDur (n + 1)
        = cycleProbeEnd interval probeDur n + interval ∧
      cycleStart interval probeDur (n + 1) - cycleStart interval probeDur n
        = probeDur n + interval ∧
      interval ≤
        cycleStart interval probeDur (n + 1) - cycleStart interval probeDur n := by
  refine ⟨rfl, ?_, ?_⟩ <;> (rw [cycleStart]; omega)

end Synapse
